import Mathlib

/-!
# Verification of the TouchRipple lifecycle engine

Shallow embedding of the ripple lifecycle engine of `src/TouchRipple.tsx`
(component `TouchRipple`: the imperative commands `start`, `stop`, `pulsate`,
the deferred touch commit, the timer model, and the post-render callback
effect), together with the geometry helpers it computes ripple placement and
diameter with.

Conventions of the embedding:
* JS numbers appearing in coordinates and rectangle measurements are modelled
  as rationals; the two square roots the code takes are modelled exactly with
  `Real.sqrt`.
* `Math.round` is `round` (both round half toward positive infinity).
* A JS field that may be `undefined` is an `Option`.  The truthiness test
  `!event.clientX` is `clientX = none ∨ clientX = some 0` (0 and undefined are
  the falsy values a coordinate can take); `event.touches` is truthy exactly
  when the field is present, hence `Option.isSome`.
* React state and refs of the component are gathered in `EngineState`.
  `setRipples` with a functional updater is applied immediately (single
  threaded, no interleaving inside a command).  The effect on `[ripples]`
  (lines 141-146 of the source) is the `flush` command: it runs only after a
  render in which the `ripples` array changed, which the `dirty` flag tracks
  (a `setRipples` returning the same array does not re-trigger the effect).
* Timers (`setTimeout` / `clearTimeout`) are modelled by the single slot
  `startTimer` holding the armed delay and the task to run; firing a timer is
  the explicit `fireTimer` command, which consumes the slot.
* Callbacks are identified by natural numbers; actually invoking one appends
  it to the `fired` log.
-/

namespace TouchRipple

/-- Duration constant of the source (`DURATION = 550`). -/
def DURATION : ℕ := 550

/-- Touch deferral delay of the source (`DELAY_RIPPLE = 80`). -/
def DELAY_RIPPLE : ℕ := 80

/-- The measurable DOM element hosting the ripple surface: its bounding
rectangle (`getBoundingClientRect`) and its `clientWidth`/`clientHeight`. -/
structure Element where
  width : ℚ
  height : ℚ
  left : ℚ
  top : ℚ
  clientWidth : ℚ
  clientHeight : ℚ
deriving DecidableEq

/-- A bounding rectangle as consumed by `start`. -/
structure Rect where
  width : ℚ
  height : ℚ
  left : ℚ
  top : ℚ
deriving DecidableEq

/-- The rectangle measured by `start`: the element's bounding rectangle, or a
zero rectangle when no element is available. -/
def getRect : Option Element → Rect
  | some el => ⟨el.width, el.height, el.left, el.top⟩
  | none => ⟨0, 0, 0, 0⟩

/-- An input event as far as the engine reads it: its `type` string, its
`clientX`/`clientY` coordinates and its `touches` list, each possibly
absent. -/
structure Event where
  type : Option String := none
  clientX : Option ℚ := none
  clientY : Option ℚ := none
  touches : Option (List (ℚ × ℚ)) := none
deriving DecidableEq

/-- Options record of `start` (`pulsate`, `center`, `fakeElement`), each field
possibly not supplied. -/
structure StartOptions where
  pulsate : Option Bool := none
  center : Option Bool := none
  fakeElement : Option Bool := none
deriving DecidableEq

/-- The component props the engine reads (`center` prop) together with the
mounted container element (`container.current`, absent when unmounted). -/
structure Config where
  centerProp : Bool := false
  container : Option Element := none

/-- The parameters captured by a commit (the argument record of
`startCommit`, also the closure stored in `startTimerCommit`). -/
structure CommitParams where
  pulsate : Bool
  rippleX : ℤ
  rippleY : ℤ
  rippleSize : ℝ
  cb : Option ℕ

/-- One committed ripple: its reconciliation key and the props handed to the
rendered `Ripple` element. -/
structure RippleInstance where
  key : ℕ
  pulsate : Bool
  rippleX : ℤ
  rippleY : ℤ
  rippleSize : ℝ

/-- A task armed in the `startTimer` slot: the body of the 80-unit deferral
timer, or the zero-delay re-invocation of `stop` armed by the force-fire
path. -/
inductive TimerTask
  | fireCommit
  | restop (event : Event) (cb : Option ℕ)

/-- The engine state: the `ripples` React state, the refs `nextKey`,
`rippleCallback`, `ignoringMouseDown`, `startTimer`, `startTimerCommit`, the
`dirty` flag recording that `ripples` changed since the effect last ran, and
the log of callbacks that have been invoked. -/
structure EngineState where
  ripples : List RippleInstance := []
  nextKey : ℕ := 0
  rippleCallback : Option ℕ := none
  ignoringMouseDown : Bool := false
  startTimer : Option (ℕ × TimerTask) := none
  startTimerCommit : Option CommitParams := none
  dirty : Bool := false
  fired : List ℕ := []

/-- The state of a freshly mounted component. -/
def initialState : EngineState := {}

/-- `startCommit` of the source: append a new ripple with the captured
parameters, bump `nextKey`, store the callback in `rippleCallback`.  The
append produces a new array, so the `[ripples]` effect will run. -/
def startCommit (s : EngineState) (p : CommitParams) : EngineState :=
  { s with
    ripples := s.ripples ++ [⟨s.nextKey, p.pulsate, p.rippleX, p.rippleY, p.rippleSize⟩]
    nextKey := s.nextKey + 1
    rippleCallback := p.cb
    dirty := true }

/-- The condition of line 237-241 of the source selecting the centered
coordinates: `center || (event.clientX === 0 && event.clientY === 0) ||
(!event.clientX && !event.touches)`. -/
def usesCenteredCoords (center : Bool) (e : Event) : Bool :=
  center
    || (decide (e.clientX = some 0) && decide (e.clientY = some 0))
    || ((decide (e.clientX = none) || decide (e.clientX = some 0))
          && decide (e.touches = none))

/-- Coordinate extraction of line 245:
`event.touches ? event.touches[0] : event` (an absent coordinate is read as
0). -/
def eventCoords (e : Event) : ℚ × ℚ :=
  match e.touches with
  | some (p :: _) => p
  | some [] => (0, 0)
  | none => (e.clientX.getD 0, e.clientY.getD 0)

/-- Ripple center resolution (lines 237-248): the center of the rectangle on
the centered path, otherwise the event coordinates relative to the
rectangle's corner, rounded. -/
def rippleCoords (center : Bool) (rect : Rect) (e : Event) : ℤ × ℤ :=
  if usesCenteredCoords center e then
    (round (rect.width / 2), round (rect.height / 2))
  else
    (round ((eventCoords e).1 - rect.left), round ((eventCoords e).2 - rect.top))

/-- Whether the exact square root of the rational `q` is an even integer;
this is the exact-value reading of the JS float test `rippleSize % 2 === 0`
applied to `rippleSize = Math.sqrt(q)`. -/
def sqrtIsEvenInt (q : ℚ) : Bool :=
  decide (q.den = 1) && decide (0 ≤ q.num)
    && decide (Nat.sqrt q.num.toNat * Nat.sqrt q.num.toNat = q.num.toNat)
    && decide (Nat.sqrt q.num.toNat % 2 = 0)

/-- The radicand of the centered diameter: `(2 * width² + height²) / 3`. -/
def centeredRadicand (rect : Rect) : ℚ :=
  (2 * rect.width ^ 2 + rect.height ^ 2) / 3

/-- Centered diameter (lines 250-256): `sqrt((2 * width² + height²) / 3)`,
incremented by 1 when that value is an even integer. -/
noncomputable def centeredSize (rect : Rect) : ℝ :=
  if sqrtIsEvenInt (centeredRadicand rect) then
    Real.sqrt (centeredRadicand rect : ℝ) + 1
  else
    Real.sqrt (centeredRadicand rect : ℝ)

/-- `element ? element.clientWidth : 0` of lines 259-260. -/
def clientWidthOf : Option Element → ℚ
  | some el => el.clientWidth
  | none => 0

/-- `element ? element.clientHeight : 0` of lines 266-267. -/
def clientHeightOf : Option Element → ℚ
  | some el => el.clientHeight
  | none => 0

/-- `sizeX` of lines 258-264:
`Math.max(Math.abs(clientWidth - rippleX), rippleX) * 2 + 2`. -/
def sizeX (element : Option Element) (rx : ℤ) : ℚ :=
  max |clientWidthOf element - (rx : ℚ)| (rx : ℚ) * 2 + 2

/-- `sizeY` of lines 265-271. -/
def sizeY (element : Option Element) (ry : ℤ) : ℚ :=
  max |clientHeightOf element - (ry : ℚ)| (ry : ℚ) * 2 + 2

/-- Non-centered diameter (line 272): `sqrt(sizeX² + sizeY²)`. -/
noncomputable def notCenteredSize (element : Option Element) (rx ry : ℤ) : ℝ :=
  Real.sqrt ((sizeX element rx ^ 2 + sizeY element ry ^ 2 : ℚ) : ℝ)

/-- The resolved `center` option of `start`:
`center = centerProp || options.pulsate` when not supplied. -/
def resolveCenter (cfg : Config) (opts : StartOptions) : Bool :=
  opts.center.getD (cfg.centerProp || opts.pulsate.getD false)

/-- The element `start` measures: `fakeElement ? null : container.current`. -/
def resolveElement (cfg : Config) (opts : StartOptions) : Option Element :=
  if opts.fakeElement.getD false then none else cfg.container

/-- The commit parameters `start` computes from the event and options
(lines 222-273): resolved geometry plus the `pulsate` flag and callback. -/
noncomputable def startParams (cfg : Config) (e : Event) (opts : StartOptions)
    (cb : Option ℕ) : CommitParams :=
  let center := resolveCenter cfg opts
  let element := resolveElement cfg opts
  let rect := getRect element
  let xy := rippleCoords center rect e
  { pulsate := opts.pulsate.getD false
    rippleX := xy.1
    rippleY := xy.2
    rippleSize := if center then centeredSize rect else notCenteredSize element xy.1 xy.2
    cb := cb }

/-- `start` of the source (lines 205-298): mouse-after-touch suppression,
`ignoringMouseDown` arming on `touchstart`, geometry resolution, then either
the deferred touch commit (stored only when no deferral is outstanding,
arming the 80-unit timer) or the synchronous commit. -/
noncomputable def start (cfg : Config) (s : EngineState) (e : Event)
    (opts : StartOptions) (cb : Option ℕ) : EngineState :=
  if e.type = some "mousedown" ∧ s.ignoringMouseDown = true then
    { s with ignoringMouseDown := false }
  else
    let s1 := if e.type = some "touchstart" then { s with ignoringMouseDown := true } else s
    if e.touches.isSome then
      if s1.startTimerCommit.isNone then
        { s1 with
          startTimerCommit := some (startParams cfg e opts cb)
          startTimer := some (DELAY_RIPPLE, TimerTask.fireCommit) }
      else s1
    else
      startCommit s1 (startParams cfg e opts cb)

/-- The tail of `stop` (lines 319-327): clear the pending commit, drop the
ripple at index 0 of a non-empty collection (`oldRipples.slice(1)`; an empty
collection is returned unchanged, so the `[ripples]` effect is not
re-triggered), and store the callback. -/
def stopRipples (s : EngineState) (cb : Option ℕ) : EngineState :=
  let s1 := { s with startTimerCommit := none }
  let s2 :=
    match s1.ripples with
    | [] => s1
    | _ :: rest => { s1 with ripples := rest, dirty := true }
  { s2 with rippleCallback := cb }

/-- `stop` of the source (lines 304-328): cancel the deferral timer; when the
event is a `touchend` and a deferred commit is pending, force-fire it, clear
it and arm a zero-delay re-invocation of `stop`; otherwise run the removal
tail. -/
noncomputable def stop (s0 : EngineState) (e : Event) (cb : Option ℕ) : EngineState :=
  let s := { s0 with startTimer := none }
  match s.startTimerCommit with
  | some p =>
    if e.type = some "touchend" then
      { startCommit s p with
        startTimerCommit := none
        startTimer := some (0, TimerTask.restop e cb) }
    else
      stopRipples s cb
  | none => stopRipples s cb

/-- Firing the armed timer: the 80-unit body (lines 286-291) runs and clears
the stored commit closure if one is still present; the zero-delay body
(lines 313-315) re-invokes `stop`.  The slot is consumed (a fired timeout
cannot be fired again). -/
noncomputable def fireTimer (s : EngineState) : EngineState :=
  match s.startTimer with
  | none => s
  | some (_, TimerTask.fireCommit) =>
    let s1 := { s with startTimer := none }
    match s1.startTimerCommit with
    | some p => { startCommit s1 p with startTimerCommit := none }
    | none => s1
  | some (_, TimerTask.restop e cb) => stop { s with startTimer := none } e cb

/-- The effect on `[ripples]` (lines 141-146): after a render in which the
`ripples` array changed, invoke and clear `rippleCallback`. -/
def flush (s : EngineState) : EngineState :=
  if s.dirty then
    match s.rippleCallback with
    | some c => { s with fired := s.fired ++ [c], rippleCallback := none, dirty := false }
    | none => { s with dirty := false }
  else s

/-- `pulsate` of the source (lines 300-302): `start({}, { pulsate: true })` —
no callback is taken or forwarded. -/
noncomputable def pulsate (cfg : Config) (s : EngineState) : EngineState :=
  start cfg s {} { pulsate := some true } none

/-- A command arriving at the engine: an imperative `start` or `stop` call,
the firing of the armed timer, or the post-render effect flush. -/
inductive Cmd
  | startCmd (e : Event) (opts : StartOptions) (cb : Option ℕ)
  | stopCmd (e : Event) (cb : Option ℕ)
  | fireCmd
  | flushCmd

/-- One step of the engine. -/
noncomputable def step (cfg : Config) (s : EngineState) : Cmd → EngineState
  | Cmd.startCmd e opts cb => start cfg s e opts cb
  | Cmd.stopCmd e cb => stop s e cb
  | Cmd.fireCmd => fireTimer s
  | Cmd.flushCmd => flush s

/-- Run a list of commands. -/
noncomputable def run (cfg : Config) (s : EngineState) : List Cmd → EngineState
  | [] => s
  | c :: cs => run cfg (step cfg s c) cs

/-- The callback carried by an armed `restop` timer, if any. -/
def cbOfTimer : Option (ℕ × TimerTask) → Option ℕ
  | some (_, TimerTask.restop _ cb) => cb
  | _ => none

/-- The state still references callback `c` somewhere it could later be
invoked from: in `rippleCallback`, in the stored commit closure, or in an
armed `restop` timer. -/
def mentionsCallback (c : ℕ) (s : EngineState) : Prop :=
  s.rippleCallback = some c
    ∨ (∃ p, s.startTimerCommit = some p ∧ p.cb = some c)
    ∨ cbOfTimer s.startTimer = some c

/-- The command supplies callback `c` from outside. -/
def cmdMentions (c : ℕ) : Cmd → Prop
  | Cmd.startCmd _ _ cb => cb = some c
  | Cmd.stopCmd _ cb => cb = some c
  | _ => False

/-! ## Branch lemmas for the three commands -/

lemma start_suppressed (cfg : Config) (s : EngineState) (e : Event)
    (opts : StartOptions) (cb : Option ℕ)
    (h1 : e.type = some "mousedown") (h2 : s.ignoringMouseDown = true) :
    start cfg s e opts cb = { s with ignoringMouseDown := false } := by
  rw [start, if_pos ⟨h1, h2⟩]

lemma start_sync_commit (cfg : Config) (s : EngineState) (e : Event)
    (opts : StartOptions) (cb : Option ℕ)
    (h1 : ¬(e.type = some "mousedown" ∧ s.ignoringMouseDown = true))
    (h2 : e.touches = none) :
    start cfg s e opts cb =
      startCommit
        (if e.type = some "touchstart" then { s with ignoringMouseDown := true } else s)
        (startParams cfg e opts cb) := by
  rw [start, if_neg h1]
  simp only [h2, Option.isSome_none, Bool.false_eq_true, if_false]

lemma start_defer_arm (cfg : Config) (s : EngineState) (e : Event)
    (opts : StartOptions) (cb : Option ℕ) (l : List (ℚ × ℚ))
    (h1 : ¬(e.type = some "mousedown" ∧ s.ignoringMouseDown = true))
    (h2 : e.touches = some l) (h3 : s.startTimerCommit = none) :
    start cfg s e opts cb =
      { (if e.type = some "touchstart" then { s with ignoringMouseDown := true } else s) with
        startTimerCommit := some (startParams cfg e opts cb)
        startTimer := some (DELAY_RIPPLE, TimerTask.fireCommit) } := by
  rcases s with ⟨rip, nk, rcb, imd, st, stc, dt, fd⟩
  simp only at h3
  subst h3
  rw [start, if_neg h1, h2]
  split <;> rfl

lemma start_defer_skip (cfg : Config) (s : EngineState) (e : Event)
    (opts : StartOptions) (cb : Option ℕ) (l : List (ℚ × ℚ)) (p : CommitParams)
    (h1 : ¬(e.type = some "mousedown" ∧ s.ignoringMouseDown = true))
    (h2 : e.touches = some l) (h3 : s.startTimerCommit = some p) :
    start cfg s e opts cb =
      (if e.type = some "touchstart" then { s with ignoringMouseDown := true } else s) := by
  rcases s with ⟨rip, nk, rcb, imd, st, stc, dt, fd⟩
  simp only at h3
  subst h3
  rw [start, if_neg h1, h2]
  split <;> rfl

lemma stop_force (s0 : EngineState) (e : Event) (cb : Option ℕ) (p : CommitParams)
    (h1 : s0.startTimerCommit = some p) (h2 : e.type = some "touchend") :
    stop s0 e cb =
      { startCommit { s0 with startTimer := none } p with
        startTimerCommit := none
        startTimer := some (0, TimerTask.restop e cb) } := by
  rcases s0 with ⟨rip, nk, rcb, imd, st, stc, dt, fd⟩
  simp only at h1
  subst h1
  rw [stop]
  exact if_pos h2

lemma stop_plain (s0 : EngineState) (e : Event) (cb : Option ℕ)
    (h : ¬(e.type = some "touchend" ∧ s0.startTimerCommit.isSome = true)) :
    stop s0 e cb = stopRipples { s0 with startTimer := none } cb := by
  rcases s0 with ⟨rip, nk, rcb, imd, st, stc, dt, fd⟩
  cases stc with
  | none => rfl
  | some p =>
    have ht : ¬e.type = some "touchend" := fun hc => h ⟨hc, rfl⟩
    rw [stop]
    exact if_neg ht

lemma stopRipples_nil (s : EngineState) (cb : Option ℕ) (h : s.ripples = []) :
    stopRipples s cb = { s with startTimerCommit := none, rippleCallback := cb } := by
  rcases s with ⟨rip, nk, rcb, imd, st, stc, dt, fd⟩
  simp only at h
  subst h
  rfl

lemma stopRipples_cons (s : EngineState) (cb : Option ℕ) (x : RippleInstance)
    (rest : List RippleInstance) (h : s.ripples = x :: rest) :
    stopRipples s cb =
      { s with startTimerCommit := none, ripples := rest, dirty := true,
               rippleCallback := cb } := by
  rcases s with ⟨rip, nk, rcb, imd, st, stc, dt, fd⟩
  simp only at h
  subst h
  rfl

lemma fireTimer_commit (s : EngineState) (d : ℕ) (p : CommitParams)
    (h1 : s.startTimer = some (d, TimerTask.fireCommit))
    (h2 : s.startTimerCommit = some p) :
    fireTimer s =
      { startCommit { s with startTimer := none } p with startTimerCommit := none } := by
  rcases s with ⟨rip, nk, rcb, imd, st, stc, dt, fd⟩
  simp only at h1 h2
  subst h1
  subst h2
  rfl

lemma fireTimer_restop (s : EngineState) (d : ℕ) (e : Event) (cb : Option ℕ)
    (h : s.startTimer = some (d, TimerTask.restop e cb)) :
    fireTimer s = stop { s with startTimer := none } e cb := by
  rcases s with ⟨rip, nk, rcb, imd, st, stc, dt, fd⟩
  simp only at h
  subst h
  rfl

lemma flush_fires (s : EngineState) (c : ℕ)
    (h1 : s.dirty = true) (h2 : s.rippleCallback = some c) :
    flush s = { s with fired := s.fired ++ [c], rippleCallback := none, dirty := false } := by
  rcases s with ⟨rip, nk, rcb, imd, st, stc, dt, fd⟩
  simp only at h1 h2
  subst h1
  subst h2
  rfl

lemma flush_clean (s : EngineState) (h : s.dirty = false) : flush s = s := by
  rcases s with ⟨rip, nk, rcb, imd, st, stc, dt, fd⟩
  simp only at h
  subst h
  rfl

/-! ## Claims -/

/-- Claim C1: a `stop` whose touchend force-fire does not apply removes
exactly the instance at index 0 of a non-empty collection; the remaining
instances are unchanged and keep their order. -/
theorem stop_removes_index_zero (s : EngineState) (e : Event) (cb : Option ℕ)
    (x : RippleInstance) (rest : List RippleInstance)
    (hforce : ¬(e.type = some "touchend" ∧ s.startTimerCommit.isSome = true))
    (hr : s.ripples = x :: rest) :
    (stop s e cb).ripples = rest := by
  rw [stop_plain s e cb hforce,
    stopRipples_cons { s with startTimer := none } cb x rest hr]

/-- Witness for C1: stopping an engine holding two ripples drops the first
and keeps the second. -/
theorem stop_removes_index_zero_witness :
    (stop { initialState with
              ripples := [⟨0, false, 1, 2, 0⟩, ⟨1, true, 3, 4, 0⟩] }
          { type := some "mouseup" } (some 3)).ripples = [⟨1, true, 3, 4, 0⟩] :=
  stop_removes_index_zero _ _ _ ⟨0, false, 1, 2, 0⟩ [⟨1, true, 3, 4, 0⟩]
    (by simp) rfl

/-- Claim C2: a `mousedown` arriving while `ignoringMouseDown` is set only
clears the flag and changes nothing else; a `touchstart` sets
`ignoringMouseDown`. -/
theorem start_mouse_touch_ambiguity :
    (∀ (cfg : Config) (s : EngineState) (e : Event) (opts : StartOptions)
        (cb : Option ℕ), e.type = some "mousedown" → s.ignoringMouseDown = true →
        start cfg s e opts cb = { s with ignoringMouseDown := false }) ∧
    (∀ (cfg : Config) (s : EngineState) (e : Event) (opts : StartOptions)
        (cb : Option ℕ), e.type = some "touchstart" →
        (start cfg s e opts cb).ignoringMouseDown = true) := by
  constructor
  · intro cfg s e opts cb h1 h2
    exact start_suppressed cfg s e opts cb h1 h2
  · intro cfg s e opts cb h
    rw [start, if_neg (by simp [h]), if_pos h]
    cases htc : e.touches with
    | none => rfl
    | some l =>
      dsimp only
      rw [if_pos (show (some l).isSome = true from rfl)]
      by_cases hc : s.startTimerCommit.isNone = true
      · rw [if_pos hc]
      · rw [if_neg hc]

/-- Witness for C2: a concrete suppressed mousedown and a concrete
touchstart. -/
theorem start_mouse_touch_ambiguity_witness :
    (start {} { initialState with ignoringMouseDown := true }
        { type := some "mousedown" } {} none
      = { initialState with ignoringMouseDown := false }) ∧
    ((start {} initialState
        { type := some "touchstart", touches := some [(1, 1)] } {} none).ignoringMouseDown
      = true) :=
  ⟨start_mouse_touch_ambiguity.1 {} _ _ {} none rfl rfl,
   start_mouse_touch_ambiguity.2 {} _ _ {} none rfl⟩

/-- A plain mouse-up event. -/
def mouseUp : Event := { type := some "mouseup" }

/-- A touchstart event with a single touch point. -/
def touchStartAt (x y : ℚ) : Event := { type := some "touchstart", touches := some [(x, y)] }

/-- A touchend event (its `touches` list is empty once the finger lifted). -/
def touchEnd : Event := { type := some "touchend" }

/-- A mousedown event at the given client coordinates. -/
def mouseDownAt (x y : ℚ) : Event :=
  { type := some "mousedown", clientX := some x, clientY := some y }

/-- Claim C5: a touch `start` appends no instance synchronously; the commit
closure is stored (and the 80-unit one-shot timer armed) only when no
deferral is pending, a second touch start within the window changes nothing
beyond `ignoringMouseDown`, and the timer firing invokes and clears the
stored closure. -/
theorem start_touch_deferral :
    DELAY_RIPPLE = 80 ∧
    (∀ (cfg : Config) (s : EngineState) (e : Event) (opts : StartOptions)
        (cb : Option ℕ) (l : List (ℚ × ℚ)), e.touches = some l →
        (start cfg s e opts cb).ripples = s.ripples) ∧
    (∀ (cfg : Config) (s : EngineState) (e : Event) (opts : StartOptions)
        (cb : Option ℕ) (l : List (ℚ × ℚ)), e.touches = some l →
        ¬(e.type = some "mousedown" ∧ s.ignoringMouseDown = true) →
        s.startTimerCommit = none →
        start cfg s e opts cb =
          { (if e.type = some "touchstart" then { s with ignoringMouseDown := true } else s) with
            startTimerCommit := some (startParams cfg e opts cb)
            startTimer := some (DELAY_RIPPLE, TimerTask.fireCommit) }) ∧
    (∀ (cfg : Config) (s : EngineState) (e : Event) (opts : StartOptions)
        (cb : Option ℕ) (l : List (ℚ × ℚ)) (p : CommitParams), e.touches = some l →
        ¬(e.type = some "mousedown" ∧ s.ignoringMouseDown = true) →
        s.startTimerCommit = some p →
        start cfg s e opts cb =
          (if e.type = some "touchstart" then { s with ignoringMouseDown := true } else s)) ∧
    (∀ (s : EngineState) (d : ℕ) (p : CommitParams),
        s.startTimer = some (d, TimerTask.fireCommit) → s.startTimerCommit = some p →
        fireTimer s =
          { startCommit { s with startTimer := none } p with startTimerCommit := none }) := by
  refine ⟨rfl, ?_, ?_, ?_, ?_⟩
  · intro cfg s e opts cb l htc
    by_cases h : e.type = some "mousedown" ∧ s.ignoringMouseDown = true
    · rw [start_suppressed cfg s e opts cb h.1 h.2]
    · cases hp : s.startTimerCommit with
      | none => rw [start_defer_arm cfg s e opts cb l h htc hp]; split <;> rfl
      | some p => rw [start_defer_skip cfg s e opts cb l p h htc hp]; split <;> rfl
  · intro cfg s e opts cb l htc h hp
    exact start_defer_arm cfg s e opts cb l h htc hp
  · intro cfg s e opts cb l p htc h hp
    exact start_defer_skip cfg s e opts cb l p h htc hp
  · intro s d p h1 h2
    exact fireTimer_commit s d p h1 h2

/-- Witness for C5: a touch start on an idle engine defers and arms the
timer; a second touch start changes nothing but the flag; firing the timer
commits and clears. -/
theorem start_touch_deferral_witness :
    ((start {} initialState (touchStartAt 1 1) {} (some 7)).ripples = [] ∧
     start {} initialState (touchStartAt 1 1) {} (some 7) =
       { { initialState with ignoringMouseDown := true } with
         startTimerCommit := some (startParams {} (touchStartAt 1 1) {} (some 7))
         startTimer := some (DELAY_RIPPLE, TimerTask.fireCommit) } ∧
     start {} { initialState with startTimerCommit := some ⟨false, 0, 0, 0, none⟩ }
         (touchStartAt 1 1) {} (some 7) =
       { { initialState with startTimerCommit := some ⟨false, 0, 0, 0, none⟩ } with
         ignoringMouseDown := true } ∧
     fireTimer { initialState with
                  startTimer := some (DELAY_RIPPLE, TimerTask.fireCommit)
                  startTimerCommit := some ⟨false, 0, 0, 0, none⟩ } =
       { startCommit
           { { initialState with
                startTimer := some (DELAY_RIPPLE, TimerTask.fireCommit)
                startTimerCommit := some ⟨false, 0, 0, 0, none⟩ } with startTimer := none }
           ⟨false, 0, 0, 0, none⟩ with startTimerCommit := none }) := by
  refine ⟨start_touch_deferral.2.1 {} initialState _ {} (some 7) [(1, 1)] rfl, ?_, ?_, ?_⟩
  · exact (start_touch_deferral.2.2.1 {} initialState (touchStartAt 1 1) {} (some 7)
      [(1, 1)] rfl (by simp [touchStartAt]) rfl).trans rfl
  · exact (start_touch_deferral.2.2.2.1 {} { initialState with
        startTimerCommit := some ⟨false, 0, 0, 0, none⟩ } (touchStartAt 1 1) {} (some 7)
      [(1, 1)] ⟨false, 0, 0, 0, none⟩ rfl (by simp [touchStartAt]) rfl).trans rfl
  · exact start_touch_deferral.2.2.2.2 _ DELAY_RIPPLE ⟨false, 0, 0, 0, none⟩ rfl rfl

/-- Claim C6: a `touchend` `stop` finding a pending deferred commit commits
it immediately, clears the pending slot, and re-arms a zero-delay `stop`
with the same arguments; a touch start followed by a touch stop inside the
deferral window creates exactly one instance, fires each callback once, and
ends with an empty collection. -/
theorem stop_force_fire_fast_tap :
    (∀ (s : EngineState) (e : Event) (cb : Option ℕ) (p : CommitParams),
        e.type = some "touchend" → s.startTimerCommit = some p →
        stop s e cb =
          { startCommit { s with startTimer := none } p with
            startTimerCommit := none
            startTimer := some (0, TimerTask.restop e cb) }) ∧
    (∀ (cfg : Config) (s : EngineState) (e1 e2 : Event) (opts : StartOptions)
        (cb1 cb2 : ℕ) (l : List (ℚ × ℚ)),
        s.ripples = [] → s.startTimerCommit = none →
        e1.type = some "touchstart" → e1.touches = some l →
        e2.type = some "touchend" →
        ((flush (fireTimer (flush (stop (start cfg s e1 opts (some cb1)) e2 (some cb2))))).ripples
            = [] ∧
         (flush (fireTimer (flush (stop (start cfg s e1 opts (some cb1)) e2 (some cb2))))).nextKey
            = s.nextKey + 1 ∧
         (flush (fireTimer (flush (stop (start cfg s e1 opts (some cb1)) e2 (some cb2))))).fired
            = s.fired ++ [cb1, cb2] ∧
         (flush (fireTimer (flush (stop (start cfg s e1 opts (some cb1)) e2 (some cb2))))).startTimer
            = none)) := by
  constructor
  · intro s e cb p h2 h1
    exact stop_force s e cb p h1 h2
  · intro cfg s e1 e2 opts cb1 cb2 l hr hp he1 he1t he2
    rcases s with ⟨rip, nk, rcb, imd, st, stc, dt, fd⟩
    simp only at hr hp
    subst hr
    subst hp
    have h1 : start cfg ⟨[], nk, rcb, imd, st, none, dt, fd⟩ e1 opts (some cb1)
        = ⟨[], nk, rcb, true, some (DELAY_RIPPLE, TimerTask.fireCommit),
            some (startParams cfg e1 opts (some cb1)), dt, fd⟩ := by
      rw [start_defer_arm cfg _ e1 opts (some cb1) l (by simp [he1]) he1t rfl, if_pos he1]
    have h2 : stop (⟨[], nk, rcb, true, some (DELAY_RIPPLE, TimerTask.fireCommit),
            some (startParams cfg e1 opts (some cb1)), dt, fd⟩ : EngineState) e2 (some cb2)
        = ⟨[⟨nk, (startParams cfg e1 opts (some cb1)).pulsate,
              (startParams cfg e1 opts (some cb1)).rippleX,
              (startParams cfg e1 opts (some cb1)).rippleY,
              (startParams cfg e1 opts (some cb1)).rippleSize⟩],
            nk + 1, some cb1, true, some (0, TimerTask.restop e2 (some cb2)), none, true, fd⟩ :=
      (stop_force _ e2 (some cb2) (startParams cfg e1 opts (some cb1)) rfl he2).trans rfl
    have h3 : flush (⟨[⟨nk, (startParams cfg e1 opts (some cb1)).pulsate,
              (startParams cfg e1 opts (some cb1)).rippleX,
              (startParams cfg e1 opts (some cb1)).rippleY,
              (startParams cfg e1 opts (some cb1)).rippleSize⟩],
            nk + 1, some cb1, true, some (0, TimerTask.restop e2 (some cb2)), none, true,
            fd⟩ : EngineState)
        = ⟨[⟨nk, (startParams cfg e1 opts (some cb1)).pulsate,
              (startParams cfg e1 opts (some cb1)).rippleX,
              (startParams cfg e1 opts (some cb1)).rippleY,
              (startParams cfg e1 opts (some cb1)).rippleSize⟩],
            nk + 1, none, true, some (0, TimerTask.restop e2 (some cb2)), none, false,
            fd ++ [cb1]⟩ :=
      (flush_fires _ cb1 rfl rfl).trans rfl
    have h4 : fireTimer (⟨[⟨nk, (startParams cfg e1 opts (some cb1)).pulsate,
              (startParams cfg e1 opts (some cb1)).rippleX,
              (startParams cfg e1 opts (some cb1)).rippleY,
              (startParams cfg e1 opts (some cb1)).rippleSize⟩],
            nk + 1, none, true, some (0, TimerTask.restop e2 (some cb2)), none, false,
            fd ++ [cb1]⟩ : EngineState)
        = ⟨[], nk + 1, some cb2, true, none, none, true, fd ++ [cb1]⟩ := by
      refine (fireTimer_restop _ 0 e2 (some cb2) rfl).trans ?_
      rw [stop_plain _ e2 (some cb2) (by simp),
        stopRipples_cons _ (some cb2) _ [] rfl]
    have h5 : flush (⟨[], nk + 1, some cb2, true, none, none, true,
            fd ++ [cb1]⟩ : EngineState)
        = ⟨[], nk + 1, none, true, none, none, false, (fd ++ [cb1]) ++ [cb2]⟩ :=
      (flush_fires _ cb2 rfl rfl).trans rfl
    rw [h1, h2, h3, h4, h5]
    refine ⟨rfl, rfl, ?_, rfl⟩
    simp

/-- Witness for C6: the force-fire equation at a pending commit, and the
fast-tap trace from the initial engine. -/
theorem stop_force_fire_fast_tap_witness :
    (stop { initialState with startTimerCommit := some ⟨false, 0, 0, 0, none⟩ }
        touchEnd (some 2) =
      { startCommit
          { { initialState with startTimerCommit := some ⟨false, 0, 0, 0, none⟩ } with
            startTimer := none } ⟨false, 0, 0, 0, none⟩ with
        startTimerCommit := none
        startTimer := some (0, TimerTask.restop touchEnd (some 2)) }) ∧
    ((flush (fireTimer (flush (stop (start {} initialState (touchStartAt 1 1) {} (some 1))
        touchEnd (some 2))))).ripples = [] ∧
     (flush (fireTimer (flush (stop (start {} initialState (touchStartAt 1 1) {} (some 1))
        touchEnd (some 2))))).fired = [1, 2]) := by
  have h2 := stop_force_fire_fast_tap.2 {} initialState (touchStartAt 1 1) touchEnd {}
    1 2 [(1, 1)] rfl rfl rfl rfl rfl
  exact ⟨stop_force_fire_fast_tap.1 _ touchEnd (some 2) ⟨false, 0, 0, 0, none⟩ rfl rfl,
    h2.1, h2.2.2.1⟩

/-- Counterexample to C7 as stated: after a `stop` on the empty engine
stores callback 1, the next unrelated collection mutation (a `pulsate`,
which appends an instance) overwrites `rippleCallback` with its own (absent)
callback before the post-mutation flush runs, so the flush after that
mutation fires nothing: callback 1 does not fire on the next unrelated
collection mutation. -/
theorem stop_empty_callback_counterexample :
    (stop initialState mouseUp (some 1)).rippleCallback = some 1 ∧
    (pulsate {} (stop initialState mouseUp (some 1))).ripples.length = 1 ∧
    (pulsate {} (stop initialState mouseUp (some 1))).rippleCallback = none ∧
    (flush (pulsate {} (stop initialState mouseUp (some 1)))).fired = [] :=
  ⟨rfl, rfl, rfl, rfl⟩

/-- Claim C7 (amended): a `stop` on an empty collection leaves the
collection unchanged, cancels the pending commit and timer, and overwrites
`pendingCallback` with the new callback, silently discarding any previously
stored one; the newly stored callback does not fire then (no flush is
triggered), and it does not fire on the next collection mutation either,
because every mutation (commit or removal) installs its own callback,
overwriting the stored one before the post-mutation flush; it can only fire
at a flush for a mutation that was already pending when the stop ran. -/
theorem stop_empty_noop_overwrite :
    (∀ (s : EngineState) (e : Event) (cb : Option ℕ),
        s.ripples = [] → ¬(e.type = some "touchend" ∧ s.startTimerCommit.isSome = true) →
        stop s e cb =
          { s with startTimer := none, startTimerCommit := none, rippleCallback := cb }) ∧
    (∀ s : EngineState, s.dirty = false → flush s = s) ∧
    (∀ (s : EngineState) (p : CommitParams), (startCommit s p).rippleCallback = p.cb) ∧
    (∀ (s : EngineState) (e : Event) (cb : Option ℕ) (x : RippleInstance)
        (rest : List RippleInstance),
        s.ripples = x :: rest → ¬(e.type = some "touchend" ∧ s.startTimerCommit.isSome = true) →
        (stop s e cb).rippleCallback = cb) := by
  refine ⟨?_, flush_clean, fun s p => rfl, ?_⟩
  · intro s e cb hr hforce
    rw [stop_plain s e cb hforce,
      stopRipples_nil { s with startTimer := none } cb hr]
  · intro s e cb x rest hr hforce
    rw [stop_plain s e cb hforce,
      stopRipples_cons { s with startTimer := none } cb x rest hr]

/-- Witness for C7 (amended): a stop on the idle empty engine discarding a
previously stored callback, a clean flush, and the overwrite equations at
concrete states. -/
theorem stop_empty_noop_overwrite_witness :
    (stop { initialState with rippleCallback := some 9 } mouseUp (some 1) =
      { { initialState with rippleCallback := some 9 } with
        startTimer := none, startTimerCommit := none, rippleCallback := some 1 }) ∧
    (flush { initialState with rippleCallback := some 9 } =
      { initialState with rippleCallback := some 9 }) ∧
    ((stop { initialState with ripples := [⟨0, false, 0, 0, 0⟩] } mouseUp
        (some 2)).rippleCallback = some 2) :=
  ⟨stop_empty_noop_overwrite.1 _ mouseUp (some 1) rfl (by simp [mouseUp]),
   stop_empty_noop_overwrite.2.1 _ rfl,
   stop_empty_noop_overwrite.2.2.2 _ mouseUp (some 2) ⟨0, false, 0, 0, 0⟩ [] rfl
     (by simp [mouseUp])⟩

/-! ## Callback bookkeeping lemmas -/

lemma startParams_cb (cfg : Config) (e : Event) (opts : StartOptions) (cb : Option ℕ) :
    (startParams cfg e opts cb).cb = cb := rfl

lemma startParams_pulsate (cfg : Config) (e : Event) (opts : StartOptions) (cb : Option ℕ) :
    (startParams cfg e opts cb).pulsate = opts.pulsate.getD false := rfl

lemma start_fired (cfg : Config) (s : EngineState) (e : Event) (opts : StartOptions)
    (cb : Option ℕ) : (start cfg s e opts cb).fired = s.fired := by
  by_cases h : e.type = some "mousedown" ∧ s.ignoringMouseDown = true
  · rw [start_suppressed cfg s e opts cb h.1 h.2]
  · by_cases ht : e.type = some "touchstart"
    all_goals cases htc : e.touches with
    | none =>
      rw [start_sync_commit cfg s e opts cb h htc]
      first
      | rw [if_pos ht]
      | rw [if_neg ht]
      all_goals rfl
    | some l =>
      cases hp : s.startTimerCommit with
      | none =>
        rw [start_defer_arm cfg s e opts cb l h htc hp]
        first
        | rw [if_pos ht]
        | rw [if_neg ht]
      | some p =>
        rw [start_defer_skip cfg s e opts cb l p h htc hp]
        first
        | rw [if_pos ht]
        | rw [if_neg ht]
        all_goals try rfl

lemma stop_fired (s : EngineState) (e : Event) (cb : Option ℕ) :
    (stop s e cb).fired = s.fired := by
  by_cases h : e.type = some "touchend" ∧ s.startTimerCommit.isSome = true
  · obtain ⟨p, hp⟩ := Option.isSome_iff_exists.mp h.2
    rw [stop_force s e cb p hp h.1]
    rfl
  · cases hr : s.ripples with
    | nil =>
      rw [stop_plain s e cb h, stopRipples_nil { s with startTimer := none } cb hr]
    | cons x rest =>
      rw [stop_plain s e cb h, stopRipples_cons { s with startTimer := none } cb x rest hr]

lemma fireTimer_fired (s : EngineState) : (fireTimer s).fired = s.fired := by
  rcases s with ⟨rip, nk, rcb, imd, st, stc, dt, fd⟩
  cases st with
  | none => rfl
  | some t =>
    rcases t with ⟨d, task⟩
    cases task with
    | fireCommit => cases stc <;> rfl
    | restop e cb => exact stop_fired ⟨rip, nk, rcb, imd, none, stc, dt, fd⟩ e cb

lemma not_mentions_start (cfg : Config) (s : EngineState) (e : Event)
    (opts : StartOptions) (cb : Option ℕ) (c : ℕ)
    (h1 : ¬mentionsCallback c s) (h2 : cb ≠ some c) :
    ¬mentionsCallback c (start cfg s e opts cb) := by
  simp only [mentionsCallback, not_or, not_exists] at h1 ⊢
  obtain ⟨hA, hB, hC⟩ := h1
  by_cases h : e.type = some "mousedown" ∧ s.ignoringMouseDown = true
  · rw [start_suppressed cfg s e opts cb h.1 h.2]
    exact ⟨hA, hB, hC⟩
  · by_cases ht : e.type = some "touchstart"
    all_goals cases htc : e.touches with
    | none =>
      rw [start_sync_commit cfg s e opts cb h htc]
      first
      | rw [if_pos ht]
      | rw [if_neg ht]
      all_goals
        refine ⟨by simpa [startCommit, startParams_cb] using h2, ?_, hC⟩
      all_goals
        intro p hp
        exact hB p hp
    | some l =>
      cases hp : s.startTimerCommit with
      | none =>
        rw [start_defer_arm cfg s e opts cb l h htc hp]
        first
        | rw [if_pos ht]
        | rw [if_neg ht]
        all_goals
          refine ⟨hA, ?_, by simp [cbOfTimer]⟩
        all_goals
          rintro p ⟨hpe, hpc⟩
          refine h2 ?_
          have hpp : startParams cfg e opts cb = p := by injection hpe
          rw [← startParams_cb cfg e opts cb, hpp]
          exact hpc
      | some p =>
        rw [start_defer_skip cfg s e opts cb l p h htc hp]
        first
        | rw [if_pos ht]
        | rw [if_neg ht]
        all_goals exact ⟨hA, hB, hC⟩

lemma not_mentions_stop (s : EngineState) (e : Event) (cb : Option ℕ) (c : ℕ)
    (h1 : ¬mentionsCallback c s) (h2 : cb ≠ some c) :
    ¬mentionsCallback c (stop s e cb) := by
  simp only [mentionsCallback, not_or, not_exists] at h1 ⊢
  obtain ⟨hA, hB, hC⟩ := h1
  by_cases h : e.type = some "touchend" ∧ s.startTimerCommit.isSome = true
  · obtain ⟨p, hp⟩ := Option.isSome_iff_exists.mp h.2
    rw [stop_force s e cb p hp h.1]
    refine ⟨?_, by simp, by simp [cbOfTimer, h2]⟩
    exact fun hcb => hB p ⟨hp, hcb⟩
  · cases hr : s.ripples with
    | nil =>
      rw [stop_plain s e cb h, stopRipples_nil { s with startTimer := none } cb hr]
      exact ⟨h2, by simp, by simp [cbOfTimer]⟩
    | cons x rest =>
      rw [stop_plain s e cb h, stopRipples_cons { s with startTimer := none } cb x rest hr]
      exact ⟨h2, by simp, by simp [cbOfTimer]⟩

lemma not_mentions_fireTimer (s : EngineState) (c : ℕ)
    (h1 : ¬mentionsCallback c s) :
    ¬mentionsCallback c (fireTimer s) := by
  rcases s with ⟨rip, nk, rcb, imd, st, stc, dt, fd⟩
  cases st with
  | none => exact h1
  | some t =>
    rcases t with ⟨d, task⟩
    cases task with
    | fireCommit =>
      simp only [mentionsCallback, not_or, not_exists, cbOfTimer] at h1
      obtain ⟨hA, hB, hC⟩ := h1
      cases stc with
      | none =>
        have hft : fireTimer ⟨rip, nk, rcb, imd, some (d, TimerTask.fireCommit),
            none, dt, fd⟩ = ⟨rip, nk, rcb, imd, none, none, dt, fd⟩ := rfl
        rw [hft]
        simp only [mentionsCallback, not_or, not_exists, cbOfTimer]
        exact ⟨hA, by simp, by simp⟩
      | some p =>
        have hft : fireTimer ⟨rip, nk, rcb, imd, some (d, TimerTask.fireCommit),
            some p, dt, fd⟩
            = ⟨rip ++ [⟨nk, p.pulsate, p.rippleX, p.rippleY, p.rippleSize⟩],
                nk + 1, p.cb, imd, none, none, true, fd⟩ := rfl
        rw [hft]
        simp only [mentionsCallback, not_or, not_exists, cbOfTimer]
        refine ⟨?_, by simp, by simp⟩
        exact fun hcb => hB p ⟨rfl, hcb⟩
    | restop e cb =>
      have hcb : cb ≠ some c := by
        simp only [mentionsCallback, not_or, cbOfTimer] at h1
        exact h1.2.2
      have h1' : ¬mentionsCallback c ⟨rip, nk, rcb, imd, none, stc, dt, fd⟩ := by
        simp only [mentionsCallback, not_or, not_exists, cbOfTimer] at h1 ⊢
        exact ⟨h1.1, h1.2.1, by simp⟩
      exact not_mentions_stop ⟨rip, nk, rcb, imd, none, stc, dt, fd⟩ e cb c h1' hcb

lemma not_mentions_flush (s : EngineState) (c : ℕ)
    (h1 : ¬mentionsCallback c s) (hf : c ∉ s.fired) :
    ¬mentionsCallback c (flush s) ∧ c ∉ (flush s).fired := by
  rcases s with ⟨rip, nk, rcb, imd, st, stc, dt, fd⟩
  simp only [mentionsCallback, not_or, not_exists] at h1
  obtain ⟨hA, hB, hC⟩ := h1
  cases dt with
  | false => exact ⟨by simp [mentionsCallback, not_or, hA, hB, hC, flush], by simpa [flush] using hf⟩
  | true =>
    cases rcb with
    | none =>
      refine ⟨by simp [mentionsCallback, not_or, flush, hB, hC], ?_⟩
      simpa [flush] using hf
    | some c' =>
      have hcc : c' ≠ c := by
        intro hcc
        exact hA (by rw [hcc])
      refine ⟨by simp [mentionsCallback, not_or, flush, hB, hC], ?_⟩
      simp only [flush, if_true]
      simp only at hf ⊢
      simp [hf, hcc, Ne.symm hcc]

lemma run_no_fire (cfg : Config) (c : ℕ) :
    ∀ (cmds : List Cmd) (s : EngineState), ¬mentionsCallback c s →
      (∀ m ∈ cmds, ¬cmdMentions c m) → c ∉ s.fired →
      ¬mentionsCallback c (run cfg s cmds) ∧ c ∉ (run cfg s cmds).fired := by
  intro cmds
  induction cmds with
  | nil => exact fun s h1 _ h3 => ⟨h1, h3⟩
  | cons m ms ih =>
    intro s h1 h2 h3
    have hm : ¬cmdMentions c m := h2 m (List.mem_cons_self m ms)
    have hstep : ¬mentionsCallback c (step cfg s m) ∧ c ∉ (step cfg s m).fired := by
      cases m with
      | startCmd e opts cb =>
        exact ⟨not_mentions_start cfg s e opts cb c h1 hm,
          (start_fired cfg s e opts cb).symm ▸ h3⟩
      | stopCmd e cb =>
        exact ⟨not_mentions_stop s e cb c h1 hm, (stop_fired s e cb).symm ▸ h3⟩
      | fireCmd => exact ⟨not_mentions_fireTimer s c h1, (fireTimer_fired s).symm ▸ h3⟩
      | flushCmd => exact not_mentions_flush s c h1 h3
    exact ih (step cfg s m) hstep.1 (fun m' hm' => h2 m' (List.mem_cons_of_mem m hm')) hstep.2

/-! ## Geometry lemmas -/

lemma centeredRadicand_nonneg (rect : Rect) : 0 ≤ centeredRadicand rect := by
  rw [centeredRadicand]
  positivity

/-- The computable test `sqrtIsEvenInt` holds exactly when the exact square
root of the (nonnegative) rational is an even integer. -/
lemma sqrtIsEvenInt_iff (q : ℚ) (hq : 0 ≤ q) :
    sqrtIsEvenInt q = true ↔ ∃ k : ℤ, Real.sqrt (q : ℝ) = 2 * k := by
  constructor
  · intro h
    simp only [sqrtIsEvenInt, Bool.and_eq_true, decide_eq_true_eq] at h
    obtain ⟨⟨⟨hden, hnum⟩, hsq⟩, hev⟩ := h
    have h1 : ((q.num : ℤ) : ℚ) = q := Rat.coe_int_num_of_den_eq_one hden
    have h2 : ((q.num.toNat : ℕ) : ℤ) = q.num := Int.toNat_of_nonneg hnum
    obtain ⟨m, hm⟩ : ∃ m, Nat.sqrt q.num.toNat = 2 * m := ⟨Nat.sqrt q.num.toNat / 2, by omega⟩
    refine ⟨(m : ℤ), ?_⟩
    have hs : ((q.num.toNat : ℕ) : ℝ) = (q : ℝ) := by
      rw [← h1]
      exact_mod_cast h2
    have hqr : (q : ℝ) = ((2 * m : ℕ) : ℝ) * ((2 * m : ℕ) : ℝ) := by
      rw [← hs, ← Nat.cast_mul, ← hm]
      exact_mod_cast hsq.symm
    rw [hqr, Real.sqrt_mul_self (by positivity)]
    push_cast
    ring
  · rintro ⟨k, hk⟩
    have hk0 : (0 : ℝ) ≤ 2 * (k : ℝ) := hk ▸ Real.sqrt_nonneg _
    have hkk : 0 ≤ k := by
      by_contra hneg
      push_neg at hneg
      have : ((k : ℝ)) < 0 := by exact_mod_cast hneg
      linarith
    have hq2 : (q : ℝ) = (2 * (k : ℝ)) ^ 2 := by
      rw [← hk, Real.sq_sqrt (by exact_mod_cast hq)]
    have hqz : q = ((4 * k ^ 2 : ℤ) : ℚ) := by
      have : (q : ℝ) = (((4 * k ^ 2 : ℤ) : ℚ) : ℝ) := by
        rw [hq2]
        push_cast
        ring
      exact_mod_cast this
    obtain ⟨m, rfl⟩ : ∃ m : ℕ, k = (m : ℤ) := ⟨k.toNat, (Int.toNat_of_nonneg hkk).symm⟩
    subst hqz
    have h4 : ((4 * (m : ℤ) ^ 2).toNat) = (2 * m) * (2 * m) := by
      have : (4 * (m : ℤ) ^ 2) = (((2 * m) * (2 * m) : ℕ) : ℤ) := by push_cast; ring
      rw [this, Int.toNat_natCast]
    simp only [sqrtIsEvenInt, Bool.and_eq_true, decide_eq_true_eq, Rat.num_intCast,
      Rat.den_intCast, h4, Nat.sqrt_eq]
    refine ⟨⟨⟨trivial, by positivity⟩, trivial⟩, by omega⟩

lemma rippleCoords_center (rect : Rect) (e : Event) :
    rippleCoords true rect e = (round (rect.width / 2), round (rect.height / 2)) := by
  rw [rippleCoords, if_pos (by simp [usesCenteredCoords])]

lemma resolveCenter_pulsate_true (cfg : Config) (opts : StartOptions)
    (h1 : opts.center = none) (h2 : opts.pulsate = some true) :
    resolveCenter cfg opts = true := by
  rw [resolveCenter, h1, h2]
  simp

/-- Counterexample to C3 as stated: a start whose event reports coordinates
(0,0) with the `center` option false takes the centered-coordinates path
(the claim's "no usable client coordinates" case, center (50,25) for the
100x50 box), yet its diameter is the corner-distance value
`sqrt(102² + 52²) = sqrt 13108`, not the centered formula
`sqrt((2*100² + 50²)/3) = sqrt 7500` (nor that value plus one). -/
theorem centered_path_diameter_counterexample :
    (start { centerProp := false, container := some ⟨100, 50, 0, 0, 100, 50⟩ }
        initialState { type := some "mousedown", clientX := some 0, clientY := some 0 }
        {} none).ripples.map (fun i => (i.rippleX, i.rippleY)) = [(50, 25)] ∧
    (start { centerProp := false, container := some ⟨100, 50, 0, 0, 100, 50⟩ }
        initialState { type := some "mousedown", clientX := some 0, clientY := some 0 }
        {} none).ripples.map (fun i => i.rippleSize) = [Real.sqrt 13108] ∧
    Real.sqrt 13108 ≠ Real.sqrt ((2 * 100 ^ 2 + 50 ^ 2) / 3 : ℝ) ∧
    Real.sqrt 13108 ≠ Real.sqrt ((2 * 100 ^ 2 + 50 ^ 2) / 3 : ℝ) + 1 := by
  have hrad : ((2 * 100 ^ 2 + 50 ^ 2) / 3 : ℝ) = 7500 := by norm_num
  have h74 : Real.sqrt 7500 < 87 := by
    rw [show (87 : ℝ) = Real.sqrt (87 ^ 2) from (Real.sqrt_sq (by norm_num)).symm]
    exact Real.sqrt_lt_sqrt (by norm_num) (by norm_num)
  have h114 : (114 : ℝ) < Real.sqrt 13108 := by
    rw [show (114 : ℝ) = Real.sqrt (114 ^ 2) from (Real.sqrt_sq (by norm_num)).symm]
    exact Real.sqrt_lt_sqrt (by norm_num) (by norm_num)
  have hins : (start { centerProp := false, container := some ⟨100, 50, 0, 0, 100, 50⟩ }
      initialState { type := some "mousedown", clientX := some 0, clientY := some 0 }
      {} none).ripples = [⟨0, false, 50, 25, Real.sqrt ((13108 : ℚ) : ℝ)⟩] := by
    rw [start_sync_commit _ _ _ _ _ (by simp [initialState]) rfl, if_neg (by simp)]
    have hxy : rippleCoords false ⟨100, 50, 0, 0⟩
        { type := some "mousedown", clientX := some 0, clientY := some 0 } = (50, 25) := by
      rw [rippleCoords, if_pos (by simp [usesCenteredCoords])]
      norm_num [round_eq]
    have hsx : sizeX (some ⟨100, 50, 0, 0, 100, 50⟩) 50 = 102 := by
      rw [sizeX, clientWidthOf]
      norm_num
    have hsy : sizeY (some ⟨100, 50, 0, 0, 100, 50⟩) 25 = 52 := by
      rw [sizeY, clientHeightOf]
      norm_num
    have hpar0 : startParams { centerProp := false, container := some ⟨100, 50, 0, 0, 100, 50⟩ }
        { type := some "mousedown", clientX := some 0, clientY := some 0 } {} none
        = ⟨false,
            (rippleCoords false ⟨100, 50, 0, 0⟩
              { type := some "mousedown", clientX := some 0, clientY := some 0 }).1,
            (rippleCoords false ⟨100, 50, 0, 0⟩
              { type := some "mousedown", clientX := some 0, clientY := some 0 }).2,
            notCenteredSize (some ⟨100, 50, 0, 0, 100, 50⟩)
              (rippleCoords false ⟨100, 50, 0, 0⟩
                { type := some "mousedown", clientX := some 0, clientY := some 0 }).1
              (rippleCoords false ⟨100, 50, 0, 0⟩
                { type := some "mousedown", clientX := some 0, clientY := some 0 }).2,
            none⟩ := rfl
    have hpar : startParams { centerProp := false, container := some ⟨100, 50, 0, 0, 100, 50⟩ }
        { type := some "mousedown", clientX := some 0, clientY := some 0 } {} none
        = ⟨false, 50, 25, Real.sqrt ((13108 : ℚ) : ℝ), none⟩ := by
      rw [hpar0, hxy]
      norm_num [notCenteredSize, hsx, hsy]
    rw [hpar]
    rfl
  have hcast : Real.sqrt ((13108 : ℚ) : ℝ) = Real.sqrt 13108 := by norm_num
  rw [hins, hrad]
  refine ⟨rfl, by simp [hcast], by intro h; rw [← h] at h74; linarith,
    by intro h; rw [h] at h114; linarith⟩

/-- Claim C3 (amended): on the centered-coordinates path the ripple center
is `(round(width/2), round(height/2))`; the centered diameter formula
`sqrt((2*width² + height²)/3)`, incremented by 1 exactly when the exact
value is an even integer, applies when the `center` option is true (a start
with unusable coordinates but `center` false keeps the corner-distance
diameter, per the counterexample); for the box 100x50 the center is
`(50, 25)` and the diameter is `sqrt 7500 ≈ 86.6`, with no parity
adjustment since `sqrt 7500` is not an even integer. -/
theorem centered_geometry :
    (∀ (rect : Rect) (e : Event),
        rippleCoords true rect e = (round (rect.width / 2), round (rect.height / 2))) ∧
    (∀ rect : Rect, (∃ k : ℤ, Real.sqrt (((2 * rect.width ^ 2 + rect.height ^ 2) / 3 : ℚ) : ℝ)
          = 2 * k) →
        centeredSize rect
          = Real.sqrt (((2 * rect.width ^ 2 + rect.height ^ 2) / 3 : ℚ) : ℝ) + 1) ∧
    (∀ rect : Rect, (¬∃ k : ℤ, Real.sqrt (((2 * rect.width ^ 2 + rect.height ^ 2) / 3 : ℚ) : ℝ)
          = 2 * k) →
        centeredSize rect
          = Real.sqrt (((2 * rect.width ^ 2 + rect.height ^ 2) / 3 : ℚ) : ℝ)) ∧
    (rippleCoords true ⟨100, 50, 0, 0⟩ {} = (50, 25) ∧
     centeredSize ⟨100, 50, 0, 0⟩ = Real.sqrt 7500 ∧
     ¬∃ k : ℤ, Real.sqrt 7500 = 2 * k) := by
  have hnotsq : ¬∃ k : ℤ, Real.sqrt 7500 = 2 * k := by
    rintro ⟨k, hk⟩
    have h1 : ((7500 : ℝ)) = (2 * (k : ℝ)) ^ 2 := by
      rw [← hk, Real.sq_sqrt (by norm_num)]
    have h2 : (7500 : ℤ) = 4 * (k * k) := by
      have : ((7500 : ℤ) : ℝ) = ((4 * (k * k) : ℤ) : ℝ) := by push_cast; rw [h1]; ring
      exact_mod_cast this
    have h3 : k * k = 1875 := by linarith
    have h6 : k.natAbs * k.natAbs = 1875 := by
      have h5 : ((k.natAbs * k.natAbs : ℕ) : ℤ) = k * k := Int.natAbs_mul_self
      omega
    have h7 := (Nat.exists_mul_self 1875).mp ⟨k.natAbs, h6⟩
    have h8 : Nat.sqrt 1875 = 43 := by norm_num [Nat.sqrt]
    rw [h8] at h7
    norm_num at h7
  refine ⟨rippleCoords_center, ?_, ?_,
    rippleCoords_center ⟨100, 50, 0, 0⟩ {} |>.trans (by norm_num [round_eq]), ?_, hnotsq⟩
  · intro rect h
    rw [centeredSize,
      if_pos ((sqrtIsEvenInt_iff _ (centeredRadicand_nonneg rect)).mpr h)]
    rfl
  · intro rect h
    rw [centeredSize,
      if_neg (fun hb => h ((sqrtIsEvenInt_iff _ (centeredRadicand_nonneg rect)).mp hb))]
    rfl
  · have hrad : centeredRadicand ⟨100, 50, 0, 0⟩ = 7500 := by
      rw [centeredRadicand]
      norm_num
    have hev : sqrtIsEvenInt (centeredRadicand ⟨100, 50, 0, 0⟩) = false := by
      rw [hrad]
      by_contra hb
      have hb' : sqrtIsEvenInt 7500 = true := by
        cases h : sqrtIsEvenInt (7500 : ℚ)
        · exact absurd h hb
        · rfl
      have := (sqrtIsEvenInt_iff 7500 (by norm_num)).mp hb'
      refine hnotsq ?_
      simpa using this
    rw [centeredSize, hev, if_neg (by simp), hrad]
    norm_num

/-- Witness for C3 (amended): the parity adjustment applies at the 4x4 box,
whose centered radicand is 16 with even root 4 (diameter `sqrt 16 + 1`), and
does not apply at the 100x50 box. -/
theorem centered_geometry_witness :
    centeredSize ⟨4, 4, 0, 0⟩
      = Real.sqrt (((2 * (4 : ℚ) ^ 2 + (4 : ℚ) ^ 2) / 3 : ℚ) : ℝ) + 1 ∧
    centeredSize ⟨100, 50, 0, 0⟩ = Real.sqrt 7500 := by
  constructor
  · refine centered_geometry.2.1 ⟨4, 4, 0, 0⟩ ⟨2, ?_⟩
    have h16 : (((2 * (4 : ℚ) ^ 2 + (4 : ℚ) ^ 2) / 3 : ℚ) : ℝ) = 4 ^ 2 := by norm_num
    rw [h16, Real.sqrt_sq (by norm_num)]
    norm_num
  · exact centered_geometry.2.2.2.2.1

/-- Counterexample to C9 as stated: the callback stored by a `stop` is not
guaranteed to fire: a second `stop` on the empty engine overwrites the
callback stored by the first before any collection mutation, so callback 1
has fired zero times and is no longer referenced anywhere in the state — no
continuation of the run can ever fire it. -/
theorem callback_discard_counterexample :
    (stop (stop initialState mouseUp (some 1)) mouseUp (some 2)).fired = [] ∧
    (stop (stop initialState mouseUp (some 1)) mouseUp (some 2)).rippleCallback = some 2 ∧
    ¬mentionsCallback 1 (stop (stop initialState mouseUp (some 1)) mouseUp (some 2)) := by
  have h : stop (stop initialState mouseUp (some 1)) mouseUp (some 2)
      = ⟨[], 0, some 2, false, none, none, false, []⟩ := rfl
  rw [h]
  exact ⟨rfl, rfl, by simp [mentionsCallback, cbOfTimer]⟩

/-- Claim C9 (amended): callbacks never fire synchronously inside `start`,
`stop` or a timer body; a stored callback fires exactly once, at the flush
following a collection mutation, and is cleared by that flush; and a
callback that is no longer referenced by the state and is not supplied again
never fires. -/
theorem callback_firing_discipline :
    (∀ (cfg : Config) (s : EngineState) (e : Event) (opts : StartOptions)
        (cb : Option ℕ), (start cfg s e opts cb).fired = s.fired) ∧
    (∀ (s : EngineState) (e : Event) (cb : Option ℕ), (stop s e cb).fired = s.fired) ∧
    (∀ s : EngineState, (fireTimer s).fired = s.fired) ∧
    (∀ (s : EngineState) (c : ℕ), s.dirty = true → s.rippleCallback = some c →
        (flush s).fired = s.fired ++ [c] ∧ (flush s).rippleCallback = none) ∧
    (∀ (cfg : Config) (c : ℕ) (cmds : List Cmd) (s : EngineState),
        ¬mentionsCallback c s → (∀ m ∈ cmds, ¬cmdMentions c m) → c ∉ s.fired →
        c ∉ (run cfg s cmds).fired) := by
  refine ⟨start_fired, stop_fired, fireTimer_fired, ?_, ?_⟩
  · intro s c h1 h2
    rw [flush_fires s c h1 h2]
    exact ⟨rfl, rfl⟩
  · intro cfg c cmds s h1 h2 h3
    exact (run_no_fire cfg c cmds s h1 h2 h3).2

/-- Witness for C9 (amended): the flush equations and the no-future-fire
property at concrete states. -/
theorem callback_firing_discipline_witness :
    ((flush { initialState with dirty := true, rippleCallback := some 5 }).fired = [5] ∧
     (flush { initialState with dirty := true, rippleCallback := some 5 }).rippleCallback
        = none) ∧
    (1 ∉ (run {} { initialState with rippleCallback := some 2 }
        [Cmd.flushCmd, Cmd.stopCmd mouseUp (some 3)]).fired) := by
  constructor
  · have h := callback_firing_discipline.2.2.2.1
      { initialState with dirty := true, rippleCallback := some 5 } 5 rfl rfl
    exact ⟨h.1, h.2⟩
  · refine callback_firing_discipline.2.2.2.2 {} 1
      [Cmd.flushCmd, Cmd.stopCmd mouseUp (some 3)] _
      (by simp [mentionsCallback, cbOfTimer, initialState]) ?_ (by simp [initialState])
    intro m hm
    simp only [List.mem_cons, List.not_mem_nil, or_false] at hm
    rcases hm with rfl | rfl
    · simp [cmdMentions]
    · simp [cmdMentions]

/-- Claim C4: on the non-centered path with usable client coordinates the
ripple center is the event coordinates minus the box's top-left offset,
rounded, and the diameter is `sqrt(sizeX² + sizeY²)` with
`sizeX = max(|clientWidth − rippleX|, rippleX) * 2 + 2` and similarly for
`sizeY`; coordinates (60,30) against the box
{left:10, top:10, width:100, height:50, clientWidth:100, clientHeight:50}
yield center (50,20), sizeX = 102, sizeY = 62. -/
theorem corner_geometry :
    (∀ (center : Bool) (rect : Rect) (e : Event),
        usesCenteredCoords center e = false →
        rippleCoords center rect e =
          (round ((eventCoords e).1 - rect.left), round ((eventCoords e).2 - rect.top))) ∧
    (∀ (element : Option Element) (rx ry : ℤ),
        notCenteredSize element rx ry =
          Real.sqrt (((max |clientWidthOf element - (rx : ℚ)| (rx : ℚ) * 2 + 2) ^ 2
            + (max |clientHeightOf element - (ry : ℚ)| (ry : ℚ) * 2 + 2) ^ 2 : ℚ) : ℝ)) ∧
    ((start { centerProp := false, container := some ⟨100, 50, 10, 10, 100, 50⟩ }
        initialState { type := some "mousedown", clientX := some 60, clientY := some 30 }
        {} none).ripples.map (fun i => (i.rippleX, i.rippleY)) = [(50, 20)] ∧
     sizeX (some ⟨100, 50, 10, 10, 100, 50⟩) 50 = 102 ∧
     sizeY (some ⟨100, 50, 10, 10, 100, 50⟩) 20 = 62 ∧
     (start { centerProp := false, container := some ⟨100, 50, 10, 10, 100, 50⟩ }
        initialState { type := some "mousedown", clientX := some 60, clientY := some 30 }
        {} none).ripples.map (fun i => i.rippleSize)
       = [Real.sqrt ((102 : ℝ) ^ 2 + (62 : ℝ) ^ 2)]) := by
  have hsx : sizeX (some ⟨100, 50, 10, 10, 100, 50⟩) 50 = 102 := by
    rw [sizeX, clientWidthOf]
    norm_num
  have hsy : sizeY (some ⟨100, 50, 10, 10, 100, 50⟩) 20 = 62 := by
    rw [sizeY, clientHeightOf]
    norm_num
  have hxy : rippleCoords false ⟨100, 50, 10, 10⟩
      { type := some "mousedown", clientX := some 60, clientY := some 30 } = (50, 20) := by
    rw [rippleCoords, if_neg (by simp [usesCenteredCoords])]
    have hev : eventCoords
        { type := some "mousedown", clientX := some 60, clientY := some 30 } = (60, 30) := rfl
    rw [hev]
    norm_num [round_eq]
  have hins : (start { centerProp := false, container := some ⟨100, 50, 10, 10, 100, 50⟩ }
      initialState { type := some "mousedown", clientX := some 60, clientY := some 30 }
      {} none).ripples = [⟨0, false, 50, 20, Real.sqrt ((14248 : ℚ) : ℝ)⟩] := by
    rw [start_sync_commit _ _ _ _ _ (by simp [initialState]) rfl, if_neg (by simp)]
    have hpar0 : startParams { centerProp := false, container := some ⟨100, 50, 10, 10, 100, 50⟩ }
        { type := some "mousedown", clientX := some 60, clientY := some 30 } {} none
        = ⟨false,
            (rippleCoords false ⟨100, 50, 10, 10⟩
              { type := some "mousedown", clientX := some 60, clientY := some 30 }).1,
            (rippleCoords false ⟨100, 50, 10, 10⟩
              { type := some "mousedown", clientX := some 60, clientY := some 30 }).2,
            notCenteredSize (some ⟨100, 50, 10, 10, 100, 50⟩)
              (rippleCoords false ⟨100, 50, 10, 10⟩
                { type := some "mousedown", clientX := some 60, clientY := some 30 }).1
              (rippleCoords false ⟨100, 50, 10, 10⟩
                { type := some "mousedown", clientX := some 60, clientY := some 30 }).2,
            none⟩ := rfl
    have hpar : startParams { centerProp := false, container := some ⟨100, 50, 10, 10, 100, 50⟩ }
        { type := some "mousedown", clientX := some 60, clientY := some 30 } {} none
        = ⟨false, 50, 20, Real.sqrt ((14248 : ℚ) : ℝ), none⟩ := by
      rw [hpar0, hxy]
      norm_num [notCenteredSize, hsx, hsy]
    rw [hpar]
    rfl
  refine ⟨?_, ?_, ?_, hsx, hsy, ?_⟩
  · intro center rect e h
    rw [rippleCoords, if_neg (by simp [h])]
  · intro element rx ry
    rfl
  · rw [hins]
    rfl
  · rw [hins]
    have h14 : Real.sqrt ((14248 : ℚ) : ℝ) = Real.sqrt ((102 : ℝ) ^ 2 + (62 : ℝ) ^ 2) := by
      norm_num
    simp only [List.map_cons, List.map_nil]
    rw [h14]

/-- Witness for C4: the rounded-offset coordinate formula applied at the
concrete event (60,30) against the box at (10,10). -/
theorem corner_geometry_witness :
    rippleCoords false ⟨100, 50, 10, 10⟩ (mouseDownAt 60 30) =
      (round ((eventCoords (mouseDownAt 60 30)).1 - (10 : ℚ)),
       round ((eventCoords (mouseDownAt 60 30)).2 - (10 : ℚ))) :=
  corner_geometry.1 false ⟨100, 50, 10, 10⟩ (mouseDownAt 60 30)
    (by simp [usesCenteredCoords, mouseDownAt])

/-- Counterexample to C8 as stated: `pulsate` accepts no callback argument
and forwards none, so `pulsate(callback)` is not equivalent to
`start({}, {pulsate: true}, callback)` for a present callback: the two
resulting states differ in the stored `rippleCallback`. -/
theorem pulsate_callback_counterexample :
    pulsate {} initialState ≠ start {} initialState {} { pulsate := some true } (some 0) :=
  fun h => Option.noConfusion
    (show (none : Option ℕ) = some 0 from congrArg EngineState.rippleCallback h)

/-- Claim C8 (amended): `pulsate()` is `start({}, {pulsate: true})` with no
callback (a callback argument is ignored, never stored); on an engine with
zero active ripples it creates exactly one instance flagged `pulsate = true`
at the center of the (possibly zero-sized) surface. -/
theorem pulsate_equiv_start :
    (∀ (cfg : Config) (s : EngineState),
        pulsate cfg s = start cfg s {} { pulsate := some true } none) ∧
    (∀ (cfg : Config) (s : EngineState), s.ripples = [] →
        (pulsate cfg s).ripples =
          [⟨s.nextKey, true, round ((getRect cfg.container).width / 2),
            round ((getRect cfg.container).height / 2),
            centeredSize (getRect cfg.container)⟩] ∧
        (pulsate cfg s).rippleCallback = none) := by
  have hpar : ∀ cfg : Config, startParams cfg {} { pulsate := some true } none
      = ⟨true, round ((getRect cfg.container).width / 2),
          round ((getRect cfg.container).height / 2),
          centeredSize (getRect cfg.container), none⟩ := by
    intro cfg
    have hc : resolveCenter cfg { pulsate := some true } = true :=
      resolveCenter_pulsate_true cfg _ rfl rfl
    have he : resolveElement cfg { pulsate := some true } = cfg.container := rfl
    rw [startParams]
    rw [hc, he, rippleCoords_center]
    simp
  refine ⟨fun cfg s => rfl, ?_⟩
  intro cfg s hr
  have h0 : pulsate cfg s = startCommit s (startParams cfg {} { pulsate := some true } none) := by
    rw [pulsate, start_sync_commit _ _ _ _ _ (by simp) rfl, if_neg (by simp)]
  rw [h0, hpar cfg]
  constructor
  · simp [startCommit, hr]
  · rfl

/-- Witness for C8 (amended): `pulsate` on the idle engine hosted by a
100x50 surface creates one centered pulsating instance and stores no
callback. -/
theorem pulsate_equiv_start_witness :
    (pulsate { centerProp := false, container := some ⟨100, 50, 0, 0, 100, 50⟩ }
        initialState).ripples =
      [⟨0, true, round ((getRect (some ⟨100, 50, 0, 0, 100, 50⟩)).width / 2),
        round ((getRect (some ⟨100, 50, 0, 0, 100, 50⟩)).height / 2),
        centeredSize (getRect (some ⟨100, 50, 0, 0, 100, 50⟩))⟩] ∧
    (pulsate { centerProp := false, container := some ⟨100, 50, 0, 0, 100, 50⟩ }
        initialState).rippleCallback = none :=
  pulsate_equiv_start.2 { centerProp := false, container := some ⟨100, 50, 0, 0, 100, 50⟩ }
    initialState rfl

/-- Claim C10: when `options.pulsate` is true and `options.center` is not
supplied, the resolved `center` option defaults to true
(`center = centerProp || options.pulsate`), so the start takes the centered
geometry path even when the event carries usable non-zero client
coordinates. -/
theorem pulsate_option_defaults_center :
    (∀ (cfg : Config) (opts : StartOptions), opts.center = none →
        opts.pulsate = some true → resolveCenter cfg opts = true) ∧
    (∀ (rect : Rect) (e : Event),
        rippleCoords true rect e = (round (rect.width / 2), round (rect.height / 2))) ∧
    (∀ (cfg : Config) (s : EngineState) (e : Event) (opts : StartOptions) (cb : Option ℕ),
        opts.center = none → opts.pulsate = some true →
        ¬(e.type = some "mousedown" ∧ s.ignoringMouseDown = true) → e.touches = none →
        (start cfg s e opts cb).ripples = s.ripples ++
          [⟨s.nextKey, true,
            round ((getRect (resolveElement cfg opts)).width / 2),
            round ((getRect (resolveElement cfg opts)).height / 2),
            centeredSize (getRect (resolveElement cfg opts))⟩]) := by
  refine ⟨resolveCenter_pulsate_true, rippleCoords_center, ?_⟩
  intro cfg s e opts cb h1 h2 h3 h4
  have hc : resolveCenter cfg opts = true := resolveCenter_pulsate_true cfg opts h1 h2
  have hpar : startParams cfg e opts cb
      = ⟨true, round ((getRect (resolveElement cfg opts)).width / 2),
          round ((getRect (resolveElement cfg opts)).height / 2),
          centeredSize (getRect (resolveElement cfg opts)), cb⟩ := by
    rw [startParams]
    rw [hc, rippleCoords_center]
    simp [h2]
  rw [start_sync_commit _ _ _ _ _ h3 h4, hpar]
  split <;> simp [startCommit]

/-- Witness for C10: a pulsate-flagged start whose event carries the usable
non-zero coordinates (60,30) still produces a centered instance. -/
theorem pulsate_option_defaults_center_witness :
    resolveCenter { centerProp := false, container := some ⟨100, 50, 0, 0, 100, 50⟩ }
      { pulsate := some true } = true ∧
    (start { centerProp := false, container := some ⟨100, 50, 0, 0, 100, 50⟩ }
        initialState { type := some "mousedown", clientX := some 60, clientY := some 30 }
        { pulsate := some true } none).ripples = [] ++
      [⟨0, true,
        round ((getRect (resolveElement
          { centerProp := false, container := some ⟨100, 50, 0, 0, 100, 50⟩ }
          { pulsate := some true })).width / 2),
        round ((getRect (resolveElement
          { centerProp := false, container := some ⟨100, 50, 0, 0, 100, 50⟩ }
          { pulsate := some true })).height / 2),
        centeredSize (getRect (resolveElement
          { centerProp := false, container := some ⟨100, 50, 0, 0, 100, 50⟩ }
          { pulsate := some true }))⟩] :=
  ⟨pulsate_option_defaults_center.1 _ _ rfl rfl,
   pulsate_option_defaults_center.2.2 _ initialState _ { pulsate := some true } none rfl rfl
     (by simp [initialState]) rfl⟩

end TouchRipple
